import Mathlib

/- Verification development for the device trust and tunnel layer of the
on-prem cloud connector.  The Python sources are shallowly embedded below:
the three TokenManager variants (the root module, the cloud registry module
and the cloud proxy module), the forwarding gateway decision logic of the
reverse proxy, and the agent bootstrap retry loop.  Timestamps are modelled
as integers counting seconds; JWT signing under a shared secret is modelled
by pairing the secret with the signed claims, so that signature checking is
exactly the recomputation test the hmac performs. -/

namespace OnPremConnector

/- Association lists standing in for Python dictionaries.  Insertion keeps
the position of an existing key, deletion removes the (unique) binding of a
key, and modification rewrites the binding in place. -/

def alookup {α : Type} (k : String) : List (String × α) → Option α
  | [] => none
  | (k', v) :: rest => if k' = k then some v else alookup k rest

def ainsert {α : Type} (k : String) (v : α) : List (String × α) → List (String × α)
  | [] => [(k, v)]
  | (k', v') :: rest => if k' = k then (k, v) :: rest else (k', v') :: ainsert k v rest

def aerase {α : Type} (k : String) : List (String × α) → List (String × α)
  | [] => []
  | (k', v') :: rest => if k' = k then rest else (k', v') :: aerase k rest

def amodify {α : Type} (k : String) (f : α → α) : List (String × α) → List (String × α)
  | [] => []
  | (k', v) :: rest => if k' = k then (k', f v) :: rest else (k', v) :: amodify k f rest

/- A Python dict never holds the same key twice; states reachable by the
program satisfy this on their device tables. -/
def keysNodup {α : Type} (l : List (String × α)) : Prop :=
  (l.map Prod.fst).Nodup

instance {α : Type} (l : List (String × α)) : Decidable (keysNodup l) := by
  unfold keysNodup; infer_instance

/- Token claims.  Every token the system mints carries a device_id and an
exp; tokens of the registry variant additionally carry a role claim, tokens
of the root and proxy variants do not (role is none there).  The iat claim
and the metadata copy the registry variant also embeds play no part in any
decision and are omitted. -/
structure Claims where
  device_id : String
  role : Option String
  exp : Int
  deriving DecidableEq, Repr

/- Model of HMAC-SHA256 over the encoded payload: the mac is the pair of
the key and the payload, so verification succeeds exactly when the mac was
produced from the same secret and the same claims. -/
def hmacSign (secret : String) (c : Claims) : String × Claims := (secret, c)

structure Token where
  claims : Claims
  mac : String × Claims
  deriving DecidableEq, Repr

inductive JwtError where
  | expired
  | invalidToken
  deriving DecidableEq, Repr

/- jwt.encode: sign the payload under the shared secret. -/
def jwtEncode (secret : String) (c : Claims) : Token :=
  { claims := c, mac := hmacSign secret c }

/- jwt.decode with HS256: verify the mac first, then the exp claim; PyJWT
raises ExpiredSignatureError when exp is less than or equal to the current
time, so a token is accepted exactly when now is strictly below exp. -/
def jwtDecode (secret : String) (now : Int) (t : Token) : Except JwtError Claims :=
  if t.mac = hmacSign secret t.claims then
    if t.claims.exp ≤ now then .error .expired else .ok t.claims
  else .error .invalidToken

/- Python exceptions that escape or are caught by the embedded code. -/
inductive PyError where
  | fileNotFound
  | jsonDecodeError
  | keyError (k : String)
  | nameError (n : String)
  | typeError (msg : String)
  | valueError (msg : String)
  deriving DecidableEq, Repr

/- JSON values as json.load and json.dump see them. -/
inductive Json where
  | null
  | bool (b : Bool)
  | num (n : Int)
  | str (s : String)
  | arr (elems : List Json)
  | obj (fields : List (String × Json))

namespace Root

/- Embedding of src/token_manager.py: records carry no role and no status
field, and metadata values are the strings the register API received. -/

structure DeviceRecord where
  device_id : String
  metadata : List (String × String)
  registered_at : Int
  last_seen : Int
  deriving DecidableEq, Repr

structure State where
  secret_key : String
  token_expiry_hours : Int
  devices : List (String × DeviceRecord)
  deriving DecidableEq, Repr

/- TokenManager._generate_token: payload holds device_id and exp only. -/
def generate_token (s : State) (device_id : String) (now : Int) : Token :=
  jwtEncode s.secret_key
    { device_id := device_id, role := none, exp := now + s.token_expiry_hours * 3600 }

structure RegisterResponse where
  token : Token
  expires_in : Int
  device_id : String
  deriving DecidableEq, Repr

/- TokenManager.register_device: an existing record keeps its registered_at
and has metadata and last_seen overwritten; a new record is appended.  A
fresh token is minted either way. -/
def register_device (s : State) (device_id : String)
    (metadata : List (String × String)) (now : Int) : RegisterResponse × State :=
  let devices :=
    match alookup device_id s.devices with
    | some _ =>
        amodify device_id (fun r => { r with metadata := metadata, last_seen := now }) s.devices
    | none =>
        s.devices ++ [(device_id,
          { device_id := device_id, metadata := metadata,
            registered_at := now, last_seen := now })]
  ({ token := generate_token s device_id now,
     expires_in := s.token_expiry_hours * 3600,
     device_id := device_id },
   { s with devices := devices })

/- TokenManager.validate_token: decode the token (signature and expiry);
reject a falsy device_id or an unknown one; otherwise touch last_seen and
return the stored record. -/
def validate_token (s : State) (t : Token) (now : Int) : Option DeviceRecord × State :=
  match jwtDecode s.secret_key now t with
  | .error _ => (none, s)
  | .ok payload =>
    if payload.device_id = "" then (none, s)
    else
      match alookup payload.device_id s.devices with
      | none => (none, s)
      | some _ =>
        let devices := amodify payload.device_id (fun r => { r with last_seen := now }) s.devices
        (alookup payload.device_id devices, { s with devices := devices })

/- TokenManager.revoke_device: an unknown id returns False; a known id is
deleted from the dictionary outright and True is returned. -/
def revoke_device (s : State) (device_id : String) : Bool × State :=
  match alookup device_id s.devices with
  | none => (false, s)
  | some _ => (true, { s with devices := aerase device_id s.devices })

/- TokenManager.cleanup_expired_devices: collect the ids whose last_seen is
strictly older than max_age_hours, delete them, return how many. -/
def cleanup_expired_devices (s : State) (max_age_hours : Int) (now : Int) : Int × State :=
  let expired :=
    (s.devices.filter (fun p => now - p.2.last_seen > max_age_hours * 3600)).map Prod.fst
  let devices := expired.foldl (fun d k => aerase k d) s.devices
  (expired.length, { s with devices := devices })

/- TokenManager.save_state writes json.dump(self.devices); the serialized
form of the device table is embedded below, together with the structural
reading back of such a dump (json.load returns exactly the dumped value, so
the directory the process holds after load_state is equivalent to the saved
one precisely when the dump decodes back to the original records). -/
def encodeMetadata (m : List (String × String)) : Json :=
  .obj (m.map (fun p => (p.1, .str p.2)))

def encodeDeviceRecord (r : DeviceRecord) : Json :=
  .obj [("device_id", .str r.device_id),
        ("metadata", encodeMetadata r.metadata),
        ("registered_at", .num r.registered_at),
        ("last_seen", .num r.last_seen)]

def save_state (s : State) : Json :=
  .obj (s.devices.map (fun p => (p.1, encodeDeviceRecord p.2)))

def decodeStr : Json → Option String
  | .str s => some s
  | _ => none

def decodeNum : Json → Option Int
  | .num n => some n
  | _ => none

def decodeMetadata : Json → Option (List (String × String))
  | .obj fields => fields.mapM (fun p => (decodeStr p.2).map (fun v => (p.1, v)))
  | _ => none

def decodeDeviceRecord : Json → Option DeviceRecord
  | .obj fields => do
      let did ← (alookup "device_id" fields).bind decodeStr
      let md ← (alookup "metadata" fields).bind decodeMetadata
      let ra ← (alookup "registered_at" fields).bind decodeNum
      let ls ← (alookup "last_seen" fields).bind decodeNum
      pure { device_id := did, metadata := md, registered_at := ra, last_seen := ls }
  | _ => none

def decodeDevices : Json → Option (List (String × DeviceRecord))
  | .obj fields => fields.mapM (fun p => (decodeDeviceRecord p.2).map (fun r => (p.1, r)))
  | _ => none

/- TokenManager.load_state: a missing file raises FileNotFoundError which is
caught (the devices table is left as it was, a warning is logged); text that
is not valid JSON makes json.load raise JSONDecodeError, which the method
does not catch, so the call fails; otherwise the parsed value is assigned to
self.devices verbatim.  The file source is modelled as none for a missing
file, some none for unparseable text, and some (some j) for text parsing to
the JSON value j; the devices table is carried at the JSON level, the level
at which this method manipulates it. -/
def load_state (devicesJson : Json) (file : Option (Option Json)) : Except PyError Json :=
  match file with
  | none => .ok devicesJson
  | some none => .error .jsonDecodeError
  | some (some j) => .ok j

end Root

namespace Registry

/- Embedding of src/cloud/registry/token_manager.py together with the role
and permission model of src/cloud/registry/models.py. -/

inductive Permission where
  | register_device
  | deregister_device
  | publish_data
  | read_data
  | manage_roles
  deriving DecidableEq, Repr

structure Role where
  name : String
  permissions : List Permission
  deriving DecidableEq, Repr

/- Role table built by the constructor (source method name starts with an
underscore and ends in roles); it is the same in every constructed state. -/
def default_roles : List (String × Role) :=
  [("admin", { name := "admin",
               permissions := [.register_device, .deregister_device, .publish_data,
                               .read_data, .manage_roles] }),
   ("device", { name := "device", permissions := [.publish_data, .read_data] }),
   ("reader", { name := "reader", permissions := [.read_data] })]

/- Fernet encryption of the metadata JSON string under the per-process
encryption key, modelled as the pair of key and plaintext so that decryption
is projection. -/
def fernetEncrypt (key data : String) : String × String := (key, data)

structure DeviceRecord where
  token : Token
  metadata_enc : String × String
  last_seen : Int
  status : String
  role : String
  deriving DecidableEq, Repr

structure State where
  secret_key : String
  encryption_key : String
  interval_hours : Int
  registered_devices : List (String × DeviceRecord)
  roles : List (String × Role)
  deriving DecidableEq, Repr

/- TokenManager._generate_token of the registry variant: the payload also
carries role device and an exp one rotation interval ahead. -/
def generate_token (s : State) (device_id : String) (now : Int) : Token :=
  jwtEncode s.secret_key
    { device_id := device_id, role := some "device", exp := now + s.interval_hours * 3600 }

/- TokenManager.register_device: unconditionally overwrite (or create) the
record with a fresh token, encrypted metadata, status active and role
device, and return the token. -/
def register_device (s : State) (device_id : String) (metadata_json : String)
    (now : Int) : Token × State :=
  let token := generate_token s device_id now
  let record : DeviceRecord :=
    { token := token,
      metadata_enc := fernetEncrypt s.encryption_key metadata_json,
      last_seen := now, status := "active", role := "device" }
  (token, { s with registered_devices := ainsert device_id record s.registered_devices })

/- TokenManager.validate_token: decode (signature and expiry), require the
subject to be registered and its status to be the string active, touch
last_seen, return True; every failure returns False. -/
def validate_token (s : State) (t : Token) (now : Int) : Bool × State :=
  match jwtDecode s.secret_key now t with
  | .error _ => (false, s)
  | .ok payload =>
    match alookup payload.device_id s.registered_devices with
    | none => (false, s)
    | some r =>
      if r.status ≠ "active" then (false, s)
      else (true,
        { s with registered_devices :=
            (amodify payload.device_id (fun r => { r with last_seen := now })
              s.registered_devices) })

/- TokenManager.check_permission: decode the token, read the role claim,
look it up in the static role table and test membership of the required
permission.  The registered devices table is never consulted. -/
def check_permission (s : State) (t : Token) (now : Int) (required : Permission) : Bool :=
  match jwtDecode s.secret_key now t with
  | .error _ => false
  | .ok payload =>
    match payload.role with
    | none => false
    | some role_name =>
      match alookup role_name s.roles with
      | none => false
      | some role => role.permissions.contains required

/- TokenManager.revoke_device of the registry variant: a registered id has
its status set to revoked (the method returns None); an unknown id raises
ValueError. -/
def revoke_device (s : State) (device_id : String) : Except PyError State :=
  match alookup device_id s.registered_devices with
  | some _ =>
      .ok { s with registered_devices :=
              (amodify device_id (fun r => { r with status := "revoked" })
                s.registered_devices) }
  | none => .error (.valueError ("Device " ++ device_id ++ " not found"))

/- TokenManager.save_state of the registry variant: the body calls
json.dump, but the module never imports json, so every call raises
NameError before anything is serialized or written. -/
def save_state (_s : State) : Except PyError Json :=
  .error (.nameError "json")

end Registry

namespace Proxy

/- Embedding of src/cloud/proxy/token_manager.py as far as the claims need
it: the load_state method.  The state fields this method assigns are held at
the JSON level, the level at which the method manipulates them. -/

structure LoadedState where
  registered_devices : Json
  secret_key : Json
  token_expiry_hours : Json

/- Subscripting state[k] on the value json.load produced: a missing key in
an object raises KeyError; subscripting a non-object with a string raises
TypeError. -/
def jsonGet (j : Json) (k : String) : Except PyError Json :=
  match j with
  | .obj fields =>
    match alookup k fields with
    | some v => .ok v
    | none => .error (.keyError k)
  | _ => .error (.typeError "indices must be integers")

/- TokenManager.load_state of the proxy variant: a missing file returns
early leaving the state unchanged; unparseable text makes json.load raise
(uncaught); a parsed value must yield the three keys devices, secret_key and
token_expiry_hours, each assigned verbatim. -/
def load_state (st : LoadedState) (file : Option (Option Json)) : Except PyError LoadedState :=
  match file with
  | none => .ok st
  | some none => .error .jsonDecodeError
  | some (some j) => do
      let d ← jsonGet j "devices"
      let sk ← jsonGet j "secret_key"
      let ttl ← jsonGet j "token_expiry_hours"
      .ok { registered_devices := d, secret_key := sk, token_expiry_hours := ttl }

end Proxy

namespace Gateway

/- Embedding of the forward_request decision logic of
src/cloud/proxy/reverse_proxy.py.  The dependency verify_token has already
produced the device_info view of the subject (the token validated); what
remains is the authorization check against the path device_id, the
resolution of the target URL from metadata, and only then the outbound
request.  The outcome type separates the three: the outbound constructor is
the only one that opens a connection. -/

structure DeviceInfoView where
  device_id : String
  metadata : List (String × String)
  deriving DecidableEq, Repr

inductive ForwardOutcome where
  | forbidden
  | badTarget
  | outbound (url : String) (endpoint : String)
  deriving DecidableEq, Repr

/- forward_request: a subject different from the path device_id raises
HTTPException 403 before anything else; a missing or falsy metadata url
raises HTTPException 400; otherwise the request is relayed to the target
formed from the url and the endpoint. -/
def forward_request (path_device_id : String) (endpoint : String)
    (device_info : DeviceInfoView) : ForwardOutcome :=
  if device_info.device_id ≠ path_device_id then .forbidden
  else
    match alookup "url" device_info.metadata with
    | none => .badTarget
    | some url => if url = "" then .badTarget else .outbound url endpoint

/- The outbound connection an outcome performs, if any. -/
def ForwardOutcome.outboundTarget : ForwardOutcome → Option (String × String)
  | .outbound u e => some (u, e)
  | _ => none

end Gateway

namespace Agent

/- Embedding of OnPremConnector.start of src/onprem/connector/agent.py:
the bounded bootstrap loop.  result n tells whether registration attempt n
(1-indexed) succeeds; while retry_count is below max_retries = 5 an attempt
is made, a failure increments retry_count and sleeps
min(30, 2 ** retry_count) seconds; leaving the loop with retry_count at the
bound raises, which is the fatal outcome. -/

structure StartResult where
  attempts : Nat
  waits : List Nat
  fatal : Bool
  deriving DecidableEq, Repr

def backoff_wait (n : Nat) : Nat := min 30 (2 ^ n)

def start_loop (result : Nat → Bool) : Nat → Nat → List Nat → StartResult
  | 0, retry_count, ws => { attempts := retry_count, waits := ws, fatal := true }
  | fuel + 1, retry_count, ws =>
    if result (retry_count + 1) then
      { attempts := retry_count + 1, waits := ws, fatal := false }
    else
      start_loop result fuel (retry_count + 1) (ws ++ [backoff_wait (retry_count + 1)])

def start (result : Nat → Bool) : StartResult :=
  start_loop result 5 0 []

end Agent

/- Concrete states and tokens used to instantiate the theorems below. -/

def c1EmptyIdState : Root.State :=
  { secret_key := "k", token_expiry_hours := 1,
    devices := [("",
      { device_id := "", metadata := [], registered_at := 0, last_seen := 0 })] }

def c1EmptyIdToken : Token :=
  jwtEncode "k" { device_id := "", role := none, exp := 3600 }

def c1WitState : Root.State :=
  { secret_key := "k", token_expiry_hours := 1,
    devices := [("dev-1",
      { device_id := "dev-1", metadata := [], registered_at := 0, last_seen := 0 })] }

def c1WitToken : Token :=
  jwtEncode "k" { device_id := "dev-1", role := none, exp := 3600 }

def c2RegState : Registry.State :=
  { secret_key := "shared-secret", encryption_key := "ek", interval_hours := 24,
    registered_devices := [], roles := Registry.default_roles }

def c2RootState : Root.State :=
  { secret_key := "shared-secret", token_expiry_hours := 1, devices := [] }

def c4RootState : Root.State :=
  { secret_key := "k", token_expiry_hours := 1,
    devices := [("dev-1",
      { device_id := "dev-1", metadata := [], registered_at := 0, last_seen := 0 })] }

def c4RegistryEmpty : Registry.State :=
  { secret_key := "k", encryption_key := "ek", interval_hours := 24,
    registered_devices := [], roles := Registry.default_roles }

def c5State : Root.State :=
  { secret_key := "k", token_expiry_hours := 1,
    devices :=
      [("stale", { device_id := "stale", metadata := [], registered_at := 0,
                   last_seen := 0 }),
       ("fresh", { device_id := "fresh", metadata := [], registered_at := 0,
                   last_seen := 99999 })] }

def c9ProxyState : Proxy.LoadedState :=
  { registered_devices := Json.obj [], secret_key := Json.str "k",
    token_expiry_hours := Json.num 1 }

def c10ExampleToken : Token :=
  jwtEncode "shared-secret" { device_id := "dev-1", role := some "device", exp := 1000 }

/- A directory in which dev-1 has been revoked. -/
def c10RevokedState : Registry.State :=
  { secret_key := "shared-secret", encryption_key := "ek", interval_hours := 24,
    registered_devices := [("dev-1",
      { token := c10ExampleToken, metadata_enc := ("ek", "m"), last_seen := 0,
        status := "revoked", role := "device" })],
    roles := Registry.default_roles }

/- The same authority with an empty directory. -/
def c10EmptyState : Registry.State :=
  { secret_key := "shared-secret", encryption_key := "ek", interval_hours := 24,
    registered_devices := [], roles := Registry.default_roles }

/- Helper lemmas about the dictionary operations. -/

theorem alookup_ainsert {α : Type} (k : String) (v : α) (l : List (String × α)) :
    alookup k (ainsert k v l) = some v := by
  induction l with
  | nil => simp [ainsert, alookup]
  | cons p rest ih =>
    by_cases h : p.1 = k
    · simp [ainsert, alookup, h]
    · simp [ainsert, alookup, h, ih]

theorem alookup_amodify_self {α : Type} (k : String) (f : α → α) (l : List (String × α)) :
    alookup k (amodify k f l) = (alookup k l).map f := by
  induction l with
  | nil => simp [amodify, alookup]
  | cons p rest ih =>
    by_cases h : p.1 = k
    · simp [amodify, alookup, h]
    · simp [amodify, alookup, h, ih]

theorem alookup_append_right {α : Type} (k : String) (l l2 : List (String × α))
    (h : alookup k l = none) : alookup k (l ++ l2) = alookup k l2 := by
  induction l with
  | nil => rfl
  | cons p rest ih =>
    by_cases hp : p.1 = k
    · simp [alookup, hp] at h
    · simp only [alookup, hp, if_false, List.cons_append] at h ⊢
      exact ih h

theorem alookup_eq_none_of_not_mem_keys {α : Type} (k : String) (l : List (String × α))
    (h : k ∉ l.map Prod.fst) : alookup k l = none := by
  induction l with
  | nil => rfl
  | cons p rest ih =>
    simp only [List.map_cons, List.mem_cons] at h
    push_neg at h
    have hp : p.1 ≠ k := fun hk => h.1 hk.symm
    simp only [alookup, hp, if_false]
    exact ih h.2

theorem alookup_aerase_self {α : Type} (k : String) (l : List (String × α))
    (h : keysNodup l) : alookup k (aerase k l) = none := by
  induction l with
  | nil => rfl
  | cons p rest ih =>
    unfold keysNodup at h
    simp only [List.map_cons, List.nodup_cons] at h
    by_cases hp : p.1 = k
    · simp only [aerase, hp, if_true]
      exact alookup_eq_none_of_not_mem_keys k rest (hp ▸ h.1)
    · simp only [aerase, hp, if_false, alookup]
      exact ih h.2

theorem start_loop_attempts_le (result : Nat → Bool) :
    ∀ (fuel retry_count : Nat) (ws : List Nat),
      (Agent.start_loop result fuel retry_count ws).attempts ≤ retry_count + fuel := by
  intro fuel
  induction fuel with
  | zero => intro rc ws; simp [Agent.start_loop]
  | succ n ih =>
    intro rc ws
    unfold Agent.start_loop
    by_cases h : result (rc + 1)
    · simp only [h, if_true]
      omega
    · simp only [h, if_false]
      calc (Agent.start_loop result n (rc + 1) _).attempts ≤ (rc + 1) + n := ih _ _
        _ = rc + (n + 1) := by omega

/-- C3: when the bearer token validates but its subject differs from the
device_id in the forward path, the gateway answers Forbidden (HTTP 403) and
opens no outbound connection to any device target. -/
theorem c3_forward_mismatch_forbidden (path_device_id endpoint : String)
    (device_info : Gateway.DeviceInfoView)
    (h : device_info.device_id ≠ path_device_id) :
    Gateway.forward_request path_device_id endpoint device_info =
      Gateway.ForwardOutcome.forbidden ∧
    (Gateway.forward_request path_device_id endpoint device_info).outboundTarget = none := by
  refine ⟨?_, ?_⟩ <;>
    simp [Gateway.forward_request, h, Gateway.ForwardOutcome.outboundTarget]

theorem c3_forward_mismatch_forbidden_witness :
    (("dev-2" : String) ≠ "dev-1") ∧
    (Gateway.forward_request "dev-1" "echo"
        { device_id := "dev-2", metadata := [("url", "http://10.0.0.5:9000")] } =
      Gateway.ForwardOutcome.forbidden ∧
    (Gateway.forward_request "dev-1" "echo"
        { device_id := "dev-2", metadata := [("url", "http://10.0.0.5:9000")] }).outboundTarget
      = none) :=
  ⟨by decide,
   c3_forward_mismatch_forbidden "dev-1" "echo"
     { device_id := "dev-2", metadata := [("url", "http://10.0.0.5:9000")] } (by decide)⟩

/-- C7: when the request authenticates and the subject matches the path but
the target device metadata holds no url entry, the gateway answers
BadTarget (HTTP 400) and opens no outbound connection. -/
theorem c7_forward_no_url_bad_target (path_device_id endpoint : String)
    (device_info : Gateway.DeviceInfoView)
    (hsub : device_info.device_id = path_device_id)
    (hurl : alookup "url" device_info.metadata = none) :
    Gateway.forward_request path_device_id endpoint device_info =
      Gateway.ForwardOutcome.badTarget ∧
    (Gateway.forward_request path_device_id endpoint device_info).outboundTarget = none := by
  refine ⟨?_, ?_⟩ <;>
    simp [Gateway.forward_request, hsub, hurl, Gateway.ForwardOutcome.outboundTarget]

theorem c7_forward_no_url_bad_target_witness :
    (Gateway.forward_request "dev-1" "echo"
        { device_id := "dev-1", metadata := [("version", "1.0")] } =
      Gateway.ForwardOutcome.badTarget ∧
    (Gateway.forward_request "dev-1" "echo"
        { device_id := "dev-1", metadata := [("version", "1.0")] }).outboundTarget = none) :=
  c7_forward_no_url_bad_target "dev-1" "echo"
    { device_id := "dev-1", metadata := [("version", "1.0")] } (by decide) (by decide)

/-- C8: in the agent bootstrap, failed attempt n is followed by a wait of
min(30, 2 to the n) seconds; five consecutive failures wait a total of
2 + 4 + 8 + 16 + 30 = 60 seconds, a sixth attempt is never made, and the
exhausted bound is the fatal outcome (the raised exception), never a silent
success; moreover no schedule of outcomes ever reaches a sixth attempt. -/
theorem c8_bootstrap_backoff :
    Agent.start (fun _ => false) =
      { attempts := 5, waits := [2, 4, 8, 16, 30], fatal := true } ∧
    [2, 4, 8, 16, 30] = (List.range 5).map (fun i => min 30 (2 ^ (i + 1))) ∧
    (2 + 4 + 8 + 16 + 30 = 60) ∧
    (∀ result : Nat → Bool, (Agent.start result).attempts ≤ 5) := by
  refine ⟨by rfl, by decide, by norm_num, ?_⟩
  intro result
  have := start_loop_attempts_le result 5 0 []
  simpa [Agent.start] using this

/-- C10: check_permission is a pure function of the token, the shared
secret and the static role table: its result is identical across any two
directory states agreeing on those, and a signed unexpired token carrying
role device passes the publish_data check no matter what the registered
devices table says, in particular for a revoked or absent subject. -/
theorem c10_check_permission_directory_independent :
    (∀ (s1 s2 : Registry.State) (t : Token) (now : Int) (p : Registry.Permission),
        s1.secret_key = s2.secret_key → s1.roles = s2.roles →
        Registry.check_permission s1 t now p = Registry.check_permission s2 t now p) ∧
    (∀ (s : Registry.State) (t : Token) (now : Int),
        t.mac = hmacSign s.secret_key t.claims → now < t.claims.exp →
        t.claims.role = some "device" → s.roles = Registry.default_roles →
        Registry.check_permission s t now Registry.Permission.publish_data = true) := by
  constructor
  · intro s1 s2 t now p h1 h2
    simp only [Registry.check_permission, h1, h2]
  · intro s t now h1 h2 h3 h4
    simp only [Registry.check_permission, jwtDecode, if_pos h1, if_neg (not_le.mpr h2),
      h3, h4, Registry.default_roles, alookup]
    decide

theorem c10_check_permission_directory_independent_witness :
    (Registry.check_permission c10RevokedState c10ExampleToken 0
        Registry.Permission.publish_data =
      Registry.check_permission c10EmptyState c10ExampleToken 0
        Registry.Permission.publish_data) ∧
    Registry.check_permission c10RevokedState c10ExampleToken 0
      Registry.Permission.publish_data = true :=
  ⟨c10_check_permission_directory_independent.1 c10RevokedState c10EmptyState
      c10ExampleToken 0 Registry.Permission.publish_data rfl rfl,
   c10_check_permission_directory_independent.2 c10RevokedState c10ExampleToken 0
      rfl (by decide) rfl rfl⟩

/-- C9: loading state from a missing file is not an error and leaves the
directory empty when it started empty, in both the root and the proxy
variant; loading a file that exists but is malformed fails with the raised
error and in particular never succeeds, so a malformed file is never read as
an empty directory; in the proxy variant a parsed file of the wrong shape
likewise surfaces the subscripting error. -/
theorem c9_load_state_missing_vs_malformed :
    (Root.load_state (Json.obj []) none = Except.ok (Json.obj [])) ∧
    (∀ dj : Json, Root.load_state dj (some none) = Except.error PyError.jsonDecodeError) ∧
    (∀ (dj : Json) (out : Json), Root.load_state dj (some none) ≠ Except.ok out) ∧
    (∀ st : Proxy.LoadedState, Proxy.load_state st none = Except.ok st) ∧
    (∀ st : Proxy.LoadedState,
        Proxy.load_state st (some none) = Except.error PyError.jsonDecodeError) ∧
    (∀ (st : Proxy.LoadedState) (j : Json) (e : PyError),
        Proxy.jsonGet j "devices" = Except.error e →
        Proxy.load_state st (some (some j)) = Except.error e) := by
  refine ⟨rfl, fun _ => rfl, fun _ _ h => by simp [Root.load_state] at h,
    fun _ => rfl, fun _ => rfl, ?_⟩
  intro st j e h
  simp [Proxy.load_state, h, bind, Except.bind]

theorem c9_load_state_missing_vs_malformed_witness :
    Proxy.load_state c9ProxyState (some (some (Json.arr []))) =
      Except.error (PyError.typeError "indices must be integers") :=
  c9_load_state_missing_vs_malformed.2.2.2.2.2 c9ProxyState (Json.arr [])
    (PyError.typeError "indices must be integers") rfl

theorem decodeMetadata_encodeMetadata (m : List (String × String)) :
    Root.decodeMetadata (Root.encodeMetadata m) = some m := by
  induction m with
  | nil => rfl
  | cons p rest ih =>
    simp only [Root.encodeMetadata, Root.decodeMetadata, List.map_cons, List.mapM_cons,
      Root.decodeStr] at ih ⊢
    simp_all [Option.bind]

theorem decodeDeviceRecord_encodeDeviceRecord (r : Root.DeviceRecord) :
    Root.decodeDeviceRecord (Root.encodeDeviceRecord r) = some r := by
  simp [Root.decodeDeviceRecord, Root.encodeDeviceRecord, alookup, Root.decodeStr,
    Root.decodeNum, decodeMetadata_encodeMetadata, Option.bind]

theorem decodeDevices_saved (l : List (String × Root.DeviceRecord)) :
    Root.decodeDevices (Json.obj (l.map (fun p => (p.1, Root.encodeDeviceRecord p.2)))) =
      some l := by
  induction l with
  | nil => rfl
  | cons p rest ih =>
    simp only [Root.decodeDevices, List.map_cons, List.mapM_cons,
      decodeDeviceRecord_encodeDeviceRecord] at ih ⊢
    simp_all [Option.bind]

/-- C6: the registry variant cannot round-trip its state at all, because
save_state raises NameError on every call (the module uses json without
importing it), so saving and loading back is impossible there; the root
variant does round-trip: the JSON dump of the device table decodes back to
exactly the original records (ids, metadata and both timestamps), which is
the directory equivalence the claim asks for. -/
theorem c6_save_load_round_trip :
    (∀ rs : Registry.State, Registry.save_state rs = Except.error (PyError.nameError "json")) ∧
    (∀ s : Root.State, Root.decodeDevices (Root.save_state s) = some s.devices) := by
  refine ⟨fun _ => rfl, fun s => ?_⟩
  simpa [Root.save_state] using decodeDevices_saved s.devices

theorem aerase_cons_ne {α : Type} (k k' : String) (v : α) (l : List (String × α))
    (h : k ≠ k') : aerase k' ((k, v) :: l) = (k, v) :: aerase k' l := by
  simp [aerase, h]

theorem foldl_aerase_cons {α : Type} (k : String) (v : α) (l : List (String × α))
    (ks : List String) (h : k ∉ ks) :
    ks.foldl (fun d k' => aerase k' d) ((k, v) :: l) =
      (k, v) :: ks.foldl (fun d k' => aerase k' d) l := by
  induction ks generalizing l with
  | nil => rfl
  | cons k' ks' ih =>
    simp only [List.mem_cons] at h
    push_neg at h
    simp only [List.foldl_cons]
    rw [aerase_cons_ne k k' v l h.1, ih _ h.2]

theorem foldl_aerase_filter {α : Type} (pred : String × α → Bool) (l : List (String × α))
    (h : keysNodup l) :
    ((l.filter pred).map Prod.fst).foldl (fun d k => aerase k d) l =
      l.filter (fun p => !pred p) := by
  induction l with
  | nil => rfl
  | cons p rest ih =>
    unfold keysNodup at h
    simp only [List.map_cons, List.nodup_cons] at h
    rcases p with ⟨k, v⟩
    by_cases hp : pred (k, v)
    · simp only [List.filter_cons, hp, if_true, List.map_cons, List.foldl_cons]
      have herase : aerase k ((k, v) :: rest) = rest := by simp [aerase]
      rw [herase]
      simpa [hp] using ih h.2
    · have hp' : pred (k, v) = false := by simpa using hp
      have hnotin : k ∉ (rest.filter pred).map Prod.fst := by
        intro hk
        rcases List.mem_map.1 hk with ⟨q, hq, hq1⟩
        have hq2 : q.1 ∈ rest.map Prod.fst :=
          List.mem_map_of_mem Prod.fst (List.mem_of_mem_filter hq)
        exact h.1 (hq1 ▸ hq2)
      rw [List.filter_cons, if_neg (by simp [hp']),
        foldl_aerase_cons k v rest _ hnotin, ih h.2, List.filter_cons]
      simp [hp']

/-- C5: the expiry sweep removes exactly the devices whose last_seen lies
strictly more than the threshold (in hours, converted to seconds) before
now, keeps every other record untouched, and returns the number removed;
the decision reads only last_seen, never registered_at. -/
theorem c5_sweep_exact (s : Root.State) (max_age_hours now : Int)
    (hnd : keysNodup s.devices) :
    (Root.cleanup_expired_devices s max_age_hours now).2.devices =
      s.devices.filter (fun p => now - p.2.last_seen ≤ max_age_hours * 3600) ∧
    (Root.cleanup_expired_devices s max_age_hours now).1 =
      ((s.devices.filter
          (fun p => now - p.2.last_seen > max_age_hours * 3600)).length : Int) := by
  constructor
  · show ((s.devices.filter _).map Prod.fst).foldl (fun d k => aerase k d) s.devices = _
    rw [foldl_aerase_filter _ s.devices hnd]
    refine List.filter_congr (fun p _ => ?_)
    rcases le_or_lt (now - p.2.last_seen) (max_age_hours * 3600) with hc | hc
    · simp [hc, not_lt.mpr hc]
    · simp [hc, not_le.mpr hc]
  · show (((s.devices.filter _).map Prod.fst).length : Int) = _
    rw [List.length_map]

theorem c5_sweep_exact_witness :
    (Root.cleanup_expired_devices c5State 24 100000).2.devices =
      c5State.devices.filter (fun p => (100000 : Int) - p.2.last_seen ≤ 24 * 3600) ∧
    (Root.cleanup_expired_devices c5State 24 100000).1 =
      ((c5State.devices.filter
          (fun p => (100000 : Int) - p.2.last_seen > 24 * 3600)).length : Int) :=
  c5_sweep_exact c5State 24 100000 (by decide)

theorem jwtDecode_ok {secret : String} {now : Int} {t : Token} {p : Claims}
    (h : jwtDecode secret now t = Except.ok p) :
    p = t.claims ∧ t.mac = hmacSign secret t.claims ∧ now < t.claims.exp := by
  unfold jwtDecode at h
  by_cases h1 : t.mac = hmacSign secret t.claims
  · rw [if_pos h1] at h
    by_cases h2 : t.claims.exp ≤ now
    · rw [if_pos h2] at h; cases h
    · rw [if_neg h2] at h
      injection h with h
      exact ⟨h.symm, h1, not_le.1 h2⟩
  · rw [if_neg h1] at h; cases h

theorem jwtDecode_eq_ok {secret : String} {now : Int} {t : Token}
    (h1 : t.mac = hmacSign secret t.claims) (h2 : now < t.claims.exp) :
    jwtDecode secret now t = Except.ok t.claims := by
  unfold jwtDecode
  rw [if_pos h1, if_neg (not_le.mpr h2)]

/- Validation fails whenever the subject of the token is not in the root
device table. -/
theorem root_validate_unknown (s : Root.State) (t : Token) (now : Int)
    (h : alookup t.claims.device_id s.devices = none) :
    (Root.validate_token s t now).1 = none := by
  unfold Root.validate_token
  cases hdec : jwtDecode s.secret_key now t with
  | error e => rfl
  | ok payload =>
    have hp : payload = t.claims := (jwtDecode_ok hdec).1
    subst hp
    by_cases hz : t.claims.device_id = ""
    · simp [hz]
    · simp [hz, h]

/- Validation of the registry variant fails whenever the record of the
subject carries a status other than active. -/
theorem registry_validate_not_active (rs : Registry.State) (t : Token) (now : Int)
    (r : Registry.DeviceRecord)
    (h : alookup t.claims.device_id rs.registered_devices = some r)
    (hst : r.status ≠ "active") :
    (Registry.validate_token rs t now).1 = false := by
  unfold Registry.validate_token
  cases hdec : jwtDecode rs.secret_key now t with
  | error e => rfl
  | ok payload =>
    have hp : payload = t.claims := (jwtDecode_ok hdec).1
    subst hp
    simp [h, hst]

/-- C4 counterexample: in the root variant, revoking the registered device
dev-1 returns true but removes the record outright, so afterwards no record
for dev-1 exists at all, let alone one carrying status revoked; and in the
registry variant, revoking an id absent from the directory raises
ValueError instead of returning false.  Both contradict the claim at these
concrete inputs. -/
theorem c4_revoke_counterexample :
    (Root.revoke_device c4RootState "dev-1").1 = true ∧
    alookup "dev-1" (Root.revoke_device c4RootState "dev-1").2.devices = none ∧
    Registry.revoke_device c4RegistryEmpty "dev-1" =
      Except.error (PyError.valueError "Device dev-1 not found") :=
  ⟨rfl, rfl, rfl⟩

/-- C4 (amended): in the root variant, revoke on an unknown id returns
false and leaves the directory unchanged, and revoke on a registered id
returns true and deletes the record outright (rather than setting a revoked
status), after which any token for that id fails the next validate because
its subject is unknown; in the registry variant, revoke on a registered id
sets the record status to revoked, after which any token for that id fails
the next validate, while revoke on an unknown id raises ValueError instead
of returning false. -/
theorem c4_revoke_amended :
    (∀ (s : Root.State) (d : String),
        (alookup d s.devices = none → Root.revoke_device s d = (false, s)) ∧
        (keysNodup s.devices → (alookup d s.devices).isSome →
          (Root.revoke_device s d).1 = true ∧
          alookup d (Root.revoke_device s d).2.devices = none ∧
          (∀ (t : Token) (now : Int), t.claims.device_id = d →
            (Root.validate_token (Root.revoke_device s d).2 t now).1 = none))) ∧
    (∀ (rs : Registry.State) (d : String),
        (∀ r : Registry.DeviceRecord, alookup d rs.registered_devices = some r →
          ∃ rs', Registry.revoke_device rs d = Except.ok rs' ∧
            alookup d rs'.registered_devices = some { r with status := "revoked" } ∧
            (∀ (t : Token) (now : Int), t.claims.device_id = d →
              (Registry.validate_token rs' t now).1 = false)) ∧
        (alookup d rs.registered_devices = none →
          Registry.revoke_device rs d =
            Except.error (PyError.valueError ("Device " ++ d ++ " not found")))) := by
  constructor
  · intro s d
    constructor
    · intro hnone
      simp [Root.revoke_device, hnone]
    · intro hnd hsome
      rcases Option.isSome_iff_exists.1 hsome with ⟨r, hr⟩
      have hrev : Root.revoke_device s d =
          (true, { s with devices := aerase d s.devices }) := by
        simp [Root.revoke_device, hr]
      refine ⟨by rw [hrev], ?_, ?_⟩
      · rw [hrev]
        exact alookup_aerase_self d s.devices hnd
      · intro t now htd
        apply root_validate_unknown
        rw [hrev, htd]
        exact alookup_aerase_self d s.devices hnd
  · intro rs d
    constructor
    · intro r hr
      refine ⟨{ rs with registered_devices :=
          (amodify d (fun r => { r with status := "revoked" }) rs.registered_devices) },
        ?_, ?_, ?_⟩
      · simp [Registry.revoke_device, hr]
      · show alookup d (amodify d _ rs.registered_devices) = _
        rw [alookup_amodify_self, hr]
        rfl
      · intro t now htd
        apply registry_validate_not_active _ _ _ ({ r with status := "revoked" })
        · show alookup t.claims.device_id (amodify d _ rs.registered_devices) = _
          rw [htd, alookup_amodify_self, hr]
          rfl
        · show ("revoked" : String) ≠ "active"
          decide
    · intro hnone
      simp [Registry.revoke_device, hnone]

theorem c4_revoke_amended_witness :
    (alookup "dev-1" (Root.revoke_device c4RootState "dev-1").2.devices = none) ∧
    Registry.revoke_device c4RegistryEmpty "dev-1" =
      Except.error (PyError.valueError ("Device " ++ "dev-1" ++ " not found")) :=
  ⟨((c4_revoke_amended.1 c4RootState "dev-1").2 (by decide) (by decide)).2.1,
   (c4_revoke_amended.2 c4RegistryEmpty "dev-1").2 rfl⟩

theorem alookup_mem {α : Type} {k : String} {r : α} {l : List (String × α)}
    (h : alookup k l = some r) : (k, r) ∈ l := by
  induction l with
  | nil => cases h
  | cons p rest ih =>
    by_cases hp : p.1 = k
    · simp only [alookup, hp, if_true, Option.some_inj] at h
      subst hp; subst h
      exact List.mem_cons_self _ _
    · simp only [alookup, hp, if_false] at h
      exact List.mem_cons_of_mem _ (ih h)

/- The registry validate accepts exactly the signed, unexpired tokens of
subjects that are present with status active. -/
theorem registry_validate_iff (rs : Registry.State) (t : Token) (now : Int) :
    (Registry.validate_token rs t now).1 = true ↔
      (t.mac = hmacSign rs.secret_key t.claims ∧ now < t.claims.exp ∧
       ∃ r, alookup t.claims.device_id rs.registered_devices = some r ∧
            r.status = "active") := by
  unfold Registry.validate_token
  cases hdec : jwtDecode rs.secret_key now t with
  | error e =>
    simp only [Bool.false_eq_true, false_iff]
    rintro ⟨h1, h2, -⟩
    rw [jwtDecode_eq_ok h1 h2] at hdec
    cases hdec
  | ok payload =>
    obtain ⟨hp, h1, h2⟩ := jwtDecode_ok hdec
    subst hp
    cases hlk : alookup t.claims.device_id rs.registered_devices with
    | none => simp [hlk, h1, h2]
    | some r =>
      by_cases hst : r.status = "active"
      · simp [hlk, hst, h1, h2]
      · simp [hlk, hst, h1, h2]

/- The root validate, on a token whose subject is a non-empty string,
accepts exactly the signed, unexpired tokens of present subjects. -/
theorem root_validate_iff (s : Root.State) (t : Token) (now : Int)
    (hz : t.claims.device_id ≠ "") :
    (Root.validate_token s t now).1.isSome = true ↔
      (t.mac = hmacSign s.secret_key t.claims ∧ now < t.claims.exp ∧
       (alookup t.claims.device_id s.devices).isSome = true) := by
  unfold Root.validate_token
  cases hdec : jwtDecode s.secret_key now t with
  | error e =>
    simp only [Option.isSome_none, Bool.false_eq_true, false_iff]
    rintro ⟨h1, h2, -⟩
    rw [jwtDecode_eq_ok h1 h2] at hdec
    cases hdec
  | ok payload =>
    obtain ⟨hp, h1, h2⟩ := jwtDecode_ok hdec
    subst hp
    cases hlk : alookup t.claims.device_id s.devices with
    | none => simp [hz, hlk, h1, h2]
    | some r => simp [hz, hlk, h1, h2, alookup_amodify_self]

/- On success the root validate returns the stored record of the subject
with its last_seen touched to now. -/
theorem root_validate_success (s : Root.State) (t : Token) (now : Int)
    (h1 : t.mac = hmacSign s.secret_key t.claims) (h2 : now < t.claims.exp)
    (hz : t.claims.device_id ≠ "") (r : Root.DeviceRecord)
    (hlk : alookup t.claims.device_id s.devices = some r) :
    (Root.validate_token s t now).1 = some { r with last_seen := now } := by
  unfold Root.validate_token
  rw [jwtDecode_eq_ok h1 h2]
  simp [hz, hlk, alookup_amodify_self]

/- After register_device the root table maps the registered id to a record
whose own device_id field is that id (given the table was well-formed). -/
theorem root_register_lookup (s : Root.State) (d : String)
    (m : List (String × String)) (now : Int)
    (hwf : ∀ p ∈ s.devices, p.2.device_id = p.1) :
    ∃ r, alookup d (Root.register_device s d m now).2.devices = some r ∧
      r.device_id = d := by
  unfold Root.register_device
  cases hlk : alookup d s.devices with
  | some r0 =>
    simp only [hlk]
    rw [alookup_amodify_self, hlk]
    exact ⟨_, rfl, hwf (d, r0) (alookup_mem hlk)⟩
  | none =>
    simp only [hlk]
    rw [alookup_append_right d _ _ hlk]
    refine ⟨{ device_id := d, metadata := m, registered_at := now, last_seen := now },
      ?_, rfl⟩
    simp [alookup]

/-- C1 counterexample: in the root variant a signed, unexpired token whose
subject is the empty string is rejected by validate even though that
subject is present in the directory (and, this variant having no status
field, presence is the entire directory condition), because validate also
requires the decoded device_id to be truthy.  So validate does not succeed
in every case where signature, expiry and directory membership hold. -/
theorem c1_validate_counterexample :
    c1EmptyIdToken.mac = hmacSign c1EmptyIdState.secret_key c1EmptyIdToken.claims ∧
    (0 : Int) < c1EmptyIdToken.claims.exp ∧
    (alookup c1EmptyIdToken.claims.device_id c1EmptyIdState.devices).isSome = true ∧
    (Root.validate_token c1EmptyIdState c1EmptyIdToken 0).1 = none :=
  ⟨rfl, by decide, rfl, rfl⟩

/-- C1 (amended): validate succeeds exactly when the signature verifies
under the shared secret, now is strictly before expiry, and the subject is
present and active in the directory — as stated for the registry variant;
for the root variant (no status field, presence is the directory condition,
and the result is the stored record) the equivalence holds for every token
whose subject is a non-empty string, while a token with an empty subject
always fails validate even when registered. -/
theorem c1_validate_iff_amended :
    (∀ (rs : Registry.State) (t : Token) (now : Int),
        (Registry.validate_token rs t now).1 = true ↔
          (t.mac = hmacSign rs.secret_key t.claims ∧ now < t.claims.exp ∧
           ∃ r, alookup t.claims.device_id rs.registered_devices = some r ∧
                r.status = "active")) ∧
    (∀ (s : Root.State) (t : Token) (now : Int), t.claims.device_id ≠ "" →
        ((Root.validate_token s t now).1.isSome = true ↔
          (t.mac = hmacSign s.secret_key t.claims ∧ now < t.claims.exp ∧
           (alookup t.claims.device_id s.devices).isSome = true))) ∧
    (∀ (s : Root.State) (t : Token) (now : Int) (r : Root.DeviceRecord),
        (∀ p ∈ s.devices, p.2.device_id = p.1) →
        (Root.validate_token s t now).1 = some r →
        r.device_id = t.claims.device_id) := by
  refine ⟨registry_validate_iff, root_validate_iff, ?_⟩
  intro s t now r hwf hv
  unfold Root.validate_token at hv
  cases hdec : jwtDecode s.secret_key now t with
  | error e => rw [hdec] at hv; cases hv
  | ok payload =>
    obtain ⟨hp, -, -⟩ := jwtDecode_ok hdec
    subst hp
    rw [hdec] at hv
    by_cases hz : t.claims.device_id = ""
    · simp [hz] at hv
    · cases hlk : alookup t.claims.device_id s.devices with
      | none => simp [hz, hlk] at hv
      | some r0 =>
        simp only [hz, if_false, hlk, alookup_amodify_self] at hv
        simp only [Option.map_some'] at hv
        have hr := Option.some_inj.mp hv
        subst hr
        exact hwf (t.claims.device_id, r0) (alookup_mem hlk)

theorem c1_validate_iff_amended_witness :
    ((Root.validate_token c1WitState c1WitToken 0).1.isSome = true ↔
      (c1WitToken.mac = hmacSign c1WitState.secret_key c1WitToken.claims ∧
       (0 : Int) < c1WitToken.claims.exp ∧
       (alookup c1WitToken.claims.device_id c1WitState.devices).isSome = true)) ∧
    ({ device_id := "dev-1", metadata := [], registered_at := 0,
       last_seen := 0 : Root.DeviceRecord }).device_id =
      c1WitToken.claims.device_id :=
  ⟨c1_validate_iff_amended.2.1 c1WitState c1WitToken 0 (by decide),
   c1_validate_iff_amended.2.2 c1WitState c1WitToken 0 _ (by decide) rfl⟩

/-- C2: registering a non-empty device_id and immediately validating the
issued token succeeds; the token subject is the registered id, the role it
was issued with is device, and the directory maps the id to a record of
role device and status active (registry variant); in the root variant the
validate call returns a record whose device_id equals the registered id. -/
theorem c2_register_then_validate
    (d mjson : String) (m : List (String × String)) (now : Int)
    (rs : Registry.State) (s : Root.State)
    (hd : d ≠ "")
    (hrttl : 0 < rs.interval_hours)
    (httl : 0 < s.token_expiry_hours)
    (hwf : ∀ p ∈ s.devices, p.2.device_id = p.1) :
    ((Registry.validate_token (Registry.register_device rs d mjson now).2
        (Registry.register_device rs d mjson now).1 now).1 = true ∧
      (Registry.register_device rs d mjson now).1.claims.device_id = d ∧
      (Registry.register_device rs d mjson now).1.claims.role = some "device" ∧
      (∃ rr, alookup d (Registry.register_device rs d mjson now).2.registered_devices =
          some rr ∧ rr.role = "device" ∧ rr.status = "active")) ∧
    (∃ r, (Root.validate_token (Root.register_device s d m now).2
        (Root.register_device s d m now).1.token now).1 = some r ∧
      r.device_id = d) := by
  constructor
  · have hexp : now < now + rs.interval_hours * 3600 := by omega
    refine ⟨?_, rfl, rfl, ?_⟩
    · rw [registry_validate_iff]
      refine ⟨rfl, hexp, ?_⟩
      refine ⟨{ token := Registry.generate_token rs d now,
                metadata_enc := Registry.fernetEncrypt rs.encryption_key mjson,
                last_seen := now, status := "active", role := "device" }, ?_, rfl⟩
      exact alookup_ainsert d _ rs.registered_devices
    · refine ⟨{ token := Registry.generate_token rs d now,
                metadata_enc := Registry.fernetEncrypt rs.encryption_key mjson,
                last_seen := now, status := "active", role := "device" }, ?_, rfl, rfl⟩
      exact alookup_ainsert d _ rs.registered_devices
  · obtain ⟨r, hr, hrid⟩ := root_register_lookup s d m now hwf
    have hexp : now < now + s.token_expiry_hours * 3600 := by omega
    refine ⟨{ r with last_seen := now }, ?_, hrid⟩
    exact root_validate_success _ _ _ rfl hexp hd r hr

theorem c2_register_then_validate_witness :
    (Registry.validate_token (Registry.register_device c2RegState "dev-1" "meta" 0).2
        (Registry.register_device c2RegState "dev-1" "meta" 0).1 0).1 = true :=
  (c2_register_then_validate "dev-1" "meta" [("url", "http://10.0.0.5:9000")] 0
      c2RegState c2RootState (by decide) (by decide) (by decide)
      (by intro p hp; cases hp)).1.1

end OnPremConnector
